import Mathlib

/-!
Shallow embedding of `update_event_map_headers.py` (PanDDA event-map
post-processing script) and verification of the specification claims about it.

Modelling conventions:
* Voxel values are IEEE-style: either a finite number (modelled exactly as a
  rational) or one of the three non-finite values NaN, +Inf, -Inf.  The claims
  under study are about the structure of the computation and about the
  NaN/Inf classification of values, both of which are exact at this level.
* File-system reads are passed in as environment arguments: a read that would
  raise in Python is modelled as `none`.
* The gemmi/numpy grid operations used by the script (setup with a fill value,
  scalar multiplication, element-wise subtraction with numpy broadcasting,
  element-wise division by a scalar, slice assignment) are embedded directly.
-/

/-- An IEEE-style floating value: a finite number (exact rational) or one of
the non-finite values NaN, +Inf, -Inf. -/
inductive FVal where
  | fin (q : ℚ)
  | pinf
  | ninf
  | nan
deriving DecidableEq, Repr

/-- True exactly on NaN; embeds the classification made by `np.isnan`. -/
def FVal.isNan : FVal → Bool
  | .nan => true
  | _ => false

/-- True exactly on finite values; embeds the classification of `np.isfinite`. -/
def FVal.isFinite : FVal → Bool
  | .fin _ => true
  | _ => false

/-- IEEE multiplication of a finite scalar by a value (`(1-bdc) * mean_map_array`
is a scalar-times-array product in the script).  `0 * Inf = NaN`, `0 * NaN = NaN`,
a positive scalar preserves the sign of an infinity, a negative one flips it. -/
def FVal.smul (c : ℚ) : FVal → FVal
  | .fin q => .fin (c * q)
  | .pinf => if 0 < c then .pinf else if c < 0 then .ninf else .nan
  | .ninf => if 0 < c then .ninf else if c < 0 then .pinf else .nan
  | .nan => .nan

/-- IEEE subtraction: NaN absorbs, `Inf - Inf = NaN`, an infinity dominates a
finite operand. -/
def FVal.fsub : FVal → FVal → FVal
  | .nan, _ => .nan
  | _, .nan => .nan
  | .fin a, .fin b => .fin (a - b)
  | .fin _, .pinf => .ninf
  | .fin _, .ninf => .pinf
  | .pinf, .fin _ => .pinf
  | .pinf, .pinf => .nan
  | .pinf, .ninf => .pinf
  | .ninf, .fin _ => .ninf
  | .ninf, .pinf => .ninf
  | .ninf, .ninf => .nan

/-- IEEE division of a value by a finite scalar (the divisor in the script is
the Python float `bdc`).  Division by (positive) zero sends a positive finite
value to +Inf, a negative one to -Inf and zero to NaN; numpy emits only a
RuntimeWarning for these, it does not raise. -/
def FVal.fdivScalar (v : FVal) (c : ℚ) : FVal :=
  if c = 0 then
    match v with
    | .fin q => if 0 < q then .pinf else if q < 0 then .ninf else .nan
    | .pinf => .pinf
    | .ninf => .ninf
    | .nan => .nan
  else if 0 < c then
    match v with
    | .fin q => .fin (q / c)
    | .pinf => .pinf
    | .ninf => .ninf
    | .nan => .nan
  else
    match v with
    | .fin q => .fin (q / c)
    | .pinf => .ninf
    | .ninf => .pinf
    | .nan => .nan

/-- A Python float, modelled as the decimal numeral it round-trips with:
an integer part and the list of digits after the decimal point (no trailing
zero digits stored).  `toStr` below embeds the CPython rendering used by the
f-string interpolation in the script for such values: the shortest round-trip
decimal, with at least one digit after the point (`str(1.0)` is `"1.0"`,
`str(0.3)` is `"0.3"`, `str(0.345)` is `"0.345"`). -/
structure PyFloat where
  intPart : Nat
  fracDigits : List Nat
deriving DecidableEq, Repr

/-- Exact numeric value of the decimal numeral. -/
def PyFloat.toVal (f : PyFloat) : ℚ :=
  (f.intPart : ℚ) +
    (f.fracDigits.foldl (fun acc d => acc * 10 + (d : ℤ)) 0 : ℚ) /
      ((10 : ℚ) ^ f.fracDigits.length)

/-- Digits after the decimal point, rendered; an empty list renders as the
single digit 0 (CPython always prints at least one fractional digit). -/
def fracDigitsToString : List Nat → String
  | [] => "0"
  | ds => String.join (ds.map (fun d => toString d))

/-- CPython `str()` of the float (see `PyFloat`). -/
def PyFloat.toStr (f : PyFloat) : String :=
  toString f.intPart ++ "." ++ fracDigitsToString f.fracDigits

/-- A gemmi grid as stored in a ccp4 file before `setup`: dimensions and a
voxel function; `none` marks a voxel outside the stored asymmetric unit. -/
structure PGrid3 where
  nu : Nat
  nv : Nat
  nw : Nat
  val : Nat → Nat → Nat → Option FVal

/-- A full (post-`setup`) grid: every voxel carries a value. -/
structure Grid3 where
  nu : Nat
  nv : Nat
  nw : Nat
  val : Nat → Nat → Nat → FVal

/-- Embeds `ccp4.setup(fill)`: every voxel missing from the stored asymmetric
unit receives the fill value. -/
def ccp4Setup (fill : FVal) (g : PGrid3) : Grid3 :=
  ⟨g.nu, g.nv, g.nw, fun i j k => (g.val i j k).getD fill⟩

/-- numpy broadcast combination of one axis: equal extents agree, an extent of
1 stretches, anything else is a ValueError. -/
def bcastDim (a b : Nat) : Option Nat :=
  if a = b then some a
  else if a = 1 then some b
  else if b = 1 then some a
  else none

/-- Index into an axis of extent `n` under broadcasting: an axis of extent 1 is
read at 0 regardless of the requested index. -/
def bIdx (n i : Nat) : Nat :=
  if n = 1 then 0 else i

/-- Scalar times grid (`(1-bdc) * mean_map_array`): shape preserved, applied
element-wise. -/
def smulGrid (c : ℚ) (g : Grid3) : Grid3 :=
  ⟨g.nu, g.nv, g.nw, fun i j k => (g.val i j k).smul c⟩

/-- Element-wise subtraction of two 3D arrays under numpy broadcasting
(`xmap_array - scaled_mean_array`); `none` embeds the ValueError raised for
non-broadcastable shapes. -/
def subGridsBroadcast (A B : Grid3) : Option Grid3 :=
  match bcastDim A.nu B.nu, bcastDim A.nv B.nv, bcastDim A.nw B.nw with
  | some nu, some nv, some nw =>
      some ⟨nu, nv, nw, fun i j k =>
        (A.val (bIdx A.nu i) (bIdx A.nv j) (bIdx A.nw k)).fsub
          (B.val (bIdx B.nu i) (bIdx B.nv j) (bIdx B.nw k))⟩
  | _, _, _ => none

/-- Element-wise division of a grid by a scalar (`event_map_array / bdc`). -/
def divScalarGrid (g : Grid3) (c : ℚ) : Grid3 :=
  ⟨g.nu, g.nv, g.nw, fun i j k => (g.val i j k).fdivScalar c⟩

/-- Embeds the numpy slice assignment
`event_map_grid_array[:, :, :] = event_map_array[:, :, :]`: the source must
broadcast to the destination shape (each source extent equals the destination
extent or is 1), else a ValueError; on success the destination holds the
broadcast source values. -/
def assignInto (dst src : Grid3) : Option Grid3 :=
  if ((src.nu == dst.nu || src.nu == 1) &&
      (src.nv == dst.nv || src.nv == 1) &&
      (src.nw == dst.nw || src.nw == 1)) then
    some ⟨dst.nu, dst.nv, dst.nw, fun i j k =>
      src.val (bIdx src.nu i) (bIdx src.nv j) (bIdx src.nw k)⟩
  else none

/-- Errors the reconstruction path can raise: a read failure from
`gemmi.read_ccp4_map` or a numpy ValueError from shape-incompatible
broadcasting. -/
inductive RecalcError where
  | readError
  | valueError
deriving DecidableEq, Repr

/-- The artifact written by a successful reconstruction: output file name,
spacegroup of the new grid and its voxel array. -/
structure RecalcOut where
  path : String
  spacegroup : String
  grid : Grid3

/-- Embeds the f-string of line 97 of the script:
`f-string dtag-event_{event_idx}_1-BDC_{bdc}_map.native.ccp4`, where `bdc` is
interpolated with the default CPython float rendering (no rounding and no
fixed-width formatting is applied by the script). -/
def eventMapFileName (dtag : String) (event_idx : Nat) (bdc : PyFloat) : String :=
  dtag ++ "-event_" ++ toString event_idx ++ "_1-BDC_" ++ bdc.toStr ++ "_map.native.ccp4"

/-- Embeds `recalculate_event_map(dtag_dir, bdc, event_idx)`.
`dtag` stands for `dtag_dir.name`; `meanRead` and `xmapRead` are the results
of the two `gemmi.read_ccp4_map` calls (`none` embeds a raised read error).
Steps, in source order: read the mean map, `setup(0.0)`, read the observed map,
`setup(0.0)`, compute `(xmap_array - ((1-bdc) * mean_map_array)) / bdc` under
numpy semantics, allocate a fresh grid with the observed dimensions, force
spacegroup P 1, slice-assign the computed array, write the output file. -/
def recalculate_event_map (dtag : String) (bdc : PyFloat) (event_idx : Nat)
    (meanRead xmapRead : Option PGrid3) : Except RecalcError RecalcOut :=
  match meanRead with
  | none => .error .readError
  | some meanP =>
    let mean_map_grid := ccp4Setup (.fin 0) meanP
    match xmapRead with
    | none => .error .readError
    | some xmapP =>
      let xmap_grid := ccp4Setup (.fin 0) xmapP
      match subGridsBroadcast xmap_grid (smulGrid (1 - bdc.toVal) mean_map_grid) with
      | none => .error .valueError
      | some diffArr =>
        let event_map_array := divScalarGrid diffArr bdc.toVal
        let event_map_grid : Grid3 := ⟨xmap_grid.nu, xmap_grid.nv, xmap_grid.nw, fun _ _ _ => .fin 0⟩
        match assignInto event_map_grid event_map_array with
        | none => .error .valueError
        | some outGrid =>
          .ok ⟨eventMapFileName dtag event_idx bdc, "P 1", outGrid⟩

/-- Path of the written output (`none` when the call raised and nothing was
written). -/
def recalcPath : Except RecalcError RecalcOut → Option String
  | .ok o => some o.path
  | .error _ => none

/-- Voxel value of the written output grid at a position (`none` when the call
raised). -/
def recalcVal (r : Except RecalcError RecalcOut) (i j k : Nat) : Option FVal :=
  match r with
  | .ok o => some (o.grid.val i j k)
  | .error _ => none

/-- Whether the reconstruction succeeded (and hence wrote an output file). -/
def recalcIsOk : Except RecalcError RecalcOut → Bool
  | .ok _ => true
  | .error _ => false

/-- Per-axis compatibility of the mean grid with the observed grid under the
numpy operations of the script: each mean extent equals the observed extent or
is 1. -/
def meanDimsCompat (m x : PGrid3) : Bool :=
  (m.nu == x.nu || m.nu == 1) &&
  (m.nv == x.nv || m.nv == 1) &&
  (m.nw == x.nw || m.nw == 1)

/-!
The header-normalization pipeline (`update_event_map_spacegroup` and the batch
loop around it).  The voxel array of a map is modelled flattened, as a list;
`none` marks a voxel outside the stored asymmetric unit (the part `setup`
fills).  Header statistics are recomputed by the external grid library as a
pure function of the voxel array (`update_ccp4_header(2, True)`); the model
keeps them abstract but deterministic: a `Stats` value determined by the
array. -/
structure Stats where
  ofData : List FVal
deriving DecidableEq, Repr

/-- The header statistics the external library computes from a voxel array:
modelled as the (deterministic) dependence on the array itself. -/
def computeStats (d : List FVal) : Stats :=
  ⟨d⟩

/-- A ccp4 map file as stored on disk or as held after `read_ccp4_map`:
voxel array (with possibly absent voxels), spacegroup name, header mode and
header statistics. -/
structure Ccp4Map where
  data : List (Option FVal)
  spacegroup : String
  mode : Nat
  stats : Stats
deriving DecidableEq, Repr

/-- Embeds `ccp4.setup(fill)` on the flattened array: absent voxels receive
the fill value. -/
def setupFillList (fill : FVal) (d : List (Option FVal)) : List FVal :=
  d.map (fun o => o.getD fill)

/-- Embeds `arr[np.isnan(arr)] = 0.0`: exactly the NaN voxels become 0.0;
`np.isnan` is false on infinities, so they pass through. -/
def zeroNans (d : List FVal) : List FVal :=
  d.map (fun v => if v.isNan then FVal.fin 0 else v)

/-- The normalization body of `update_event_map_spacegroup` applied to a
successfully opened map, composed with the write and a re-read: spacegroup
forced to P 1, `setup(nan)`, NaN voxels zeroed, header recomputed with
mode 2 and extended statistics, file overwritten (the written file stores the
full array, so every voxel is present afterwards). -/
def normalizeMap (m : Ccp4Map) : Ccp4Map :=
  let arr := zeroNans (setupFillList FVal.nan m.data)
  ⟨arr.map some, "P 1", 2, computeStats arr⟩

/-- The Python error that actually terminates `update_event_map_spacegroup`
when the map cannot be opened: after the except block logs, execution falls
through to `ccp4.grid.spacegroup = ...` with the local `ccp4` never assigned,
raising UnboundLocalError. -/
inductive PyError where
  | unboundLocal
deriving DecidableEq, Repr

deriving instance DecidableEq for Except

/-- Embeds `update_event_map_spacegroup(event_map_file)`.  The argument is the
result of `gemmi.read_ccp4_map` (`none` embeds a raised open error).  Returns
whether the corruption diagnostic was logged, and either the map written back
to the file or the propagated exception.  On an open failure the except block
logs the diagnostic and control falls through; the next statement dereferences
the unbound local `ccp4` and raises, so nothing is written. -/
def update_event_map_spacegroup (openResult : Option Ccp4Map) :
    Bool × Except PyError Ccp4Map :=
  match openResult with
  | some ccp4 => (false, .ok (normalizeMap ccp4))
  | none => (true, .error .unboundLocal)

/-- Embeds the `for event_map_file in event_map_files` loop of
`update_event_map_spacegroups`: files processed in order, each written result
collected; the loop body has no exception handler, so the first raised error
aborts the whole loop.  Returns the maps written and whether the loop ran to
completion. -/
def runNormalizeLoop : List (Option Ccp4Map) → List Ccp4Map × Bool
  | [] => ([], true)
  | f :: rest =>
    match update_event_map_spacegroup f with
    | (_, .ok g) =>
      let r := runNormalizeLoop rest
      (g :: r.1, r.2)
    | (_, .error _) => ([], false)

/-- The options dictionary of `update_event_map_spacegroups` (lines 115-118):
in the current code it is built directly from the argument, with an empty
exclusion list; the json-reading branch is commented out. -/
structure RunConfig where
  pandda_dir : String
  excluded_files : List String
deriving DecidableEq, Repr

/-- Embeds lines 115-118 of the script: the options are always the argument
itself as the root directory and an empty exclusion list. -/
def buildOptions (pandda_dir : String) : RunConfig :=
  ⟨pandda_dir, []⟩

/-- Embeds `get_event_map_files`: the per-dataset glob results are flattened
and a file is kept when its resolved path is not in the exclusion list.
`dirs` carries, for each dataset directory under `processed_datasets`, the
paths matching the glob for event maps; `resolve` embeds `Path.resolve`. -/
def get_event_map_files (dirs : List (List String)) (resolve : String → String)
    (excluded_files : List String) : List String :=
  dirs.flatten.filter (fun f => !(excluded_files.contains (resolve f)))

/-- Embeds `update_event_map_spacegroups(pandda_dir)`: build the options,
resolve the exclusion list, enumerate the event map files and run the
normalization loop over them.  `readMap` embeds `gemmi.read_ccp4_map` on each
enumerated path. -/
def update_event_map_spacegroups (pandda_dir : String) (dirs : List (List String))
    (resolve : String → String) (readMap : String → Option Ccp4Map) :
    List Ccp4Map × Bool :=
  let options := buildOptions pandda_dir
  let exclude := options.excluded_files.map resolve
  let event_map_files := get_event_map_files dirs resolve exclude
  runNormalizeLoop (event_map_files.map readMap)

/-- Modelled from the spec (section 6, configuration input): the behaviour the
spec describes for the legacy path, for comparison with `buildOptions` above.
If the supplied argument is a recognized configuration file (`readConfig`
returns its parsed contents), `pandda_dir` and `excluded_files` are taken from
it, the excluded paths resolved to absolute form; otherwise the argument is
the root path with an empty exclusion list. -/
def specConfigParse (arg : String) (readConfig : String → Option RunConfig)
    (resolve : String → String) : RunConfig :=
  match readConfig arg with
  | some cfg => ⟨cfg.pandda_dir, cfg.excluded_files.map resolve⟩
  | none => ⟨arg, []⟩

/-- Modelled from the spec (section 6, naming convention): the BDC value
formatted to exactly two decimal places, for comparison with the raw
interpolation the script performs. -/
def twoDPStr (f : PyFloat) : String :=
  let base := f.intPart * 100 + f.fracDigits.getD 0 0 * 10 + f.fracDigits.getD 1 0
  let cents := if 5 ≤ f.fracDigits.getD 2 0 then base + 1 else base
  toString (cents / 100) ++ "." ++
    (if cents % 100 < 10 then "0" ++ toString (cents % 100) else toString (cents % 100))

/-- One row of `pandda_inspect_events.csv` together with the read results for
the maps of its dataset directory (the environment the row is processed in):
`dtag`, the `1-BDC` column value (passed as `bdc`), `event_idx`, and the two
`gemmi.read_ccp4_map` outcomes. -/
structure EventRow where
  dtag : String
  bdc : PyFloat
  event_idx : Nat
  meanRead : Option PGrid3
  xmapRead : Option PGrid3

/-- Embeds the row loop of `recalculate_event_maps`: rows processed in order;
the loop body has no exception handler, so a raised error in
`recalculate_event_map` aborts the loop.  Returns the output paths written and
whether the loop ran to completion. -/
def recalculate_event_maps : List EventRow → List String × Bool
  | [] => ([], true)
  | r :: rest =>
    match recalculate_event_map r.dtag r.bdc r.event_idx r.meanRead r.xmapRead with
    | .ok out =>
      let t := recalculate_event_maps rest
      (out.path :: t.1, t.2)
    | .error _ => ([], false)

/-- Embeds `_get_pandda_dir_type`: the classification depends only on whether
`pandda.done` exists under the root. -/
def get_pandda_dir_type (panddaDoneExists : Bool) : String :=
  if panddaDoneExists then "pandda_1" else "pandda_2"

/-- Result of one `dispatch` run: which pipeline ran and what it produced,
or the dead defensive `raise` of the final else branch. -/
inductive DispatchOut where
  | normalized (r : List Ccp4Map × Bool)
  | recalculated (r : List String × Bool)
  | raised
deriving DecidableEq, Repr

/-- Embeds `dispatch(pandda_dir)`: classify the root, then either run the
header-normalization pipeline (legacy) or the reconstruction pipeline
(current).  The filesystem environment of each branch is passed in. -/
def dispatch (pandda_dir : String) (panddaDoneExists : Bool)
    (dirs : List (List String)) (resolve : String → String)
    (readMap : String → Option Ccp4Map) (rows : List EventRow) : DispatchOut :=
  let pandda := get_pandda_dir_type panddaDoneExists
  if pandda = "pandda_1" then
    .normalized (update_event_map_spacegroups pandda_dir dirs resolve readMap)
  else if pandda = "pandda_2" then
    .recalculated (recalculate_event_maps rows)
  else
    .raised

/-!
Concrete inputs used by witnesses, counterexamples and failing-input
theorems. -/

/-- The Python float 0.0 (renders as "0.0"). -/
def pfZero : PyFloat := ⟨0, []⟩

/-- The Python float 0.3 (renders as "0.3"). -/
def pfPoint3 : PyFloat := ⟨0, [3]⟩

/-- The Python float 0.5 (renders as "0.5"). -/
def pfHalf : PyFloat := ⟨0, [5]⟩

/-- A 1 by 1 by 1 stored grid holding the value 1.0. -/
def pgOne : PGrid3 := ⟨1, 1, 1, fun _ _ _ => some (FVal.fin 1)⟩

/-- A 1 by 1 by 1 stored grid holding the value 2.0. -/
def pgTwo : PGrid3 := ⟨1, 1, 1, fun _ _ _ => some (FVal.fin 2)⟩

/-- A 2 by 2 by 2 stored grid holding the value 1.0. -/
def pgBig : PGrid3 := ⟨2, 2, 2, fun _ _ _ => some (FVal.fin 1)⟩

/-- A 1 by 1 by 1 stored grid holding NaN. -/
def pgNan : PGrid3 := ⟨1, 1, 1, fun _ _ _ => some FVal.nan⟩

/-- A map file holding a single +Inf voxel. -/
def mapInf : Ccp4Map := ⟨[some FVal.pinf], "P 1", 2, computeStats [FVal.pinf]⟩

/-- A map file holding a single NaN voxel. -/
def mapNan : Ccp4Map := ⟨[some FVal.nan], "P 21 21 21", 0, ⟨[]⟩⟩

/-- An ordinary healthy map file. -/
def mapGood : Ccp4Map := ⟨[some (FVal.fin 1)], "P 21 21 21", 0, ⟨[]⟩⟩

/-- A row whose mean-map read fails. -/
def badRow : EventRow := ⟨"BAD", pfHalf, 1, none, some pgOne⟩

/-- A row whose maps both read successfully. -/
def goodRow : EventRow := ⟨"GOOD", pfHalf, 2, some pgTwo, some pgOne⟩

/-- A filesystem reader for the configuration-file counterexample: the
argument names a recognized configuration file describing a different root
and a non-empty exclusion list. -/
def cfgRead : String → Option RunConfig :=
  fun s => if s = "options.json" then some ⟨"/data/pandda", ["/data/bad.ccp4"]⟩ else none

/-!
Helper lemmas shared by the claim theorems. -/

theorem bIdx_of_lt (n i : Nat) (h : i < n) : bIdx n i = i := by
  unfold bIdx
  split <;> omega

/-- Evaluation of the reconstructor when the two grids have equal dimensions:
it succeeds, writes the raw-interpolation file name, and the output voxel at
any in-range position is exactly the BDC formula applied to the two setup
grids at that position. -/
theorem recalc_dims_eq (dtag : String) (bdc : PyFloat) (idx : Nat) (mp xp : PGrid3)
    (hu : mp.nu = xp.nu) (hv : mp.nv = xp.nv) (hw : mp.nw = xp.nw)
    (i j k : Nat) (hi : i < xp.nu) (hj : j < xp.nv) (hk : k < xp.nw) :
    ∃ out, recalculate_event_map dtag bdc idx (some mp) (some xp) = Except.ok out ∧
      out.path = eventMapFileName dtag idx bdc ∧
      out.grid.val i j k =
        (((ccp4Setup (FVal.fin 0) xp).val i j k).fsub
          (((ccp4Setup (FVal.fin 0) mp).val i j k).smul (1 - bdc.toVal))).fdivScalar bdc.toVal := by
  obtain ⟨mu, mv, mw, mval⟩ := mp
  obtain ⟨xu, xv, xw, xval⟩ := xp
  simp only at hu hv hw hi hj hk
  subst hu hv hw
  have h1 : bcastDim mu mu = some mu := by simp [bcastDim]
  have h2 : bcastDim mv mv = some mv := by simp [bcastDim]
  have h3 : bcastDim mw mw = some mw := by simp [bcastDim]
  have hres : recalculate_event_map dtag bdc idx (some ⟨mu, mv, mw, mval⟩) (some ⟨mu, mv, mw, xval⟩) =
      Except.ok ⟨eventMapFileName dtag idx bdc, "P 1",
        ⟨mu, mv, mw, fun a b c =>
          (((xval (bIdx mu (bIdx mu a)) (bIdx mv (bIdx mv b)) (bIdx mw (bIdx mw c))).getD (FVal.fin 0)).fsub
            (FVal.smul (1 - bdc.toVal)
              ((mval (bIdx mu (bIdx mu a)) (bIdx mv (bIdx mv b)) (bIdx mw (bIdx mw c))).getD
                (FVal.fin 0)))).fdivScalar bdc.toVal⟩⟩ := by
    simp only [recalculate_event_map, subGridsBroadcast, smulGrid, ccp4Setup, divScalarGrid,
      assignInto, h1, h2, h3, beq_self_eq_true, Bool.true_or, Bool.true_and, eq_self_iff_true,
      if_true]
  refine ⟨_, hres, rfl, ?_⟩
  simp only [bIdx_of_lt _ _ hi, bIdx_of_lt _ _ hj, bIdx_of_lt _ _ hk, ccp4Setup]

theorem fsub_nonfin_right (x s : FVal) (hs : s.isFinite = false) :
    (x.fsub s).isFinite = false := by
  cases x <;> cases s <;> simp_all [FVal.fsub, FVal.isFinite]

theorem fsub_nonfin_left (x s : FVal) (hx : x.isFinite = false) (hs : s.isFinite = true) :
    (x.fsub s).isFinite = false := by
  cases x <;> cases s <;> simp_all [FVal.fsub, FVal.isFinite]

theorem smul_nonfin (c : ℚ) (m : FVal) (hm : m.isFinite = false) :
    (m.smul c).isFinite = false := by
  cases m <;> simp_all [FVal.smul, FVal.isFinite] <;> split_ifs <;> simp [FVal.isFinite]

theorem fdivScalar_nonfin (v : FVal) (c : ℚ) (hv : v.isFinite = false) :
    (v.fdivScalar c).isFinite = false := by
  cases v <;> simp_all [FVal.fdivScalar, FVal.isFinite] <;> split_ifs <;> simp [FVal.isFinite]

/-- The BDC formula propagates non-finiteness: whatever the scalar, a
non-finite observed or mean voxel makes the computed voxel non-finite. -/
theorem formula_nonfin (x m : FVal) (c : ℚ)
    (h : x.isFinite = false ∨ m.isFinite = false) :
    ((x.fsub (m.smul (1 - c))).fdivScalar c).isFinite = false := by
  rcases h with hx | hm
  · cases hmf : (m.smul (1 - c)).isFinite
    · exact fdivScalar_nonfin _ _ (fsub_nonfin_right _ _ hmf)
    · exact fdivScalar_nonfin _ _ (fsub_nonfin_left _ _ hx hmf)
  · exact fdivScalar_nonfin _ _ (fsub_nonfin_right _ _ (smul_nonfin _ _ hm))

/-- Combined per-axis behaviour of the broadcast subtraction followed by the
slice assignment: the axis succeeds end to end exactly when the mean extent
equals the observed extent or is 1. -/
theorem dimOkLemma (a b : Nat) :
    (match bcastDim a b with
     | some r => (r == a || r == 1)
     | none => false) = (b == a || b == 1) := by
  unfold bcastDim
  by_cases hab : a = b
  · subst hab; simp
  · by_cases ha : a = 1
    · subst ha
      by_cases hb : b = 1
      · subst hb; simp at hab
      · simp [hab, hb]
    · by_cases hb : b = 1
      · subst hb; simp [hab, ha]
      · simp [hab, ha, hb, Ne.symm hab]

theorem setupFill_map_some (f : FVal) (l : List FVal) :
    setupFillList f (l.map some) = l := by
  simp only [setupFillList, List.map_map]
  have h : ((fun o => Option.getD o f) ∘ some) = fun v : FVal => v := by
    funext v
    rfl
  rw [h]
  exact List.map_id' l

theorem zeroNans_not_nan (v : FVal) : (if v.isNan then FVal.fin 0 else v).isNan = false := by
  cases v <;> simp [FVal.isNan]

theorem zeroNans_idem (l : List FVal) : zeroNans (zeroNans l) = zeroNans l := by
  induction l with
  | nil => rfl
  | cons a t ih =>
    simp only [zeroNans, List.map_cons] at ih ⊢
    rw [zeroNans_not_nan a]
    simp only [Bool.false_eq_true, if_false, ih]

theorem normalizeMap_idem (m : Ccp4Map) : normalizeMap (normalizeMap m) = normalizeMap m := by
  simp [normalizeMap, setupFill_map_some, zeroNans_idem]

theorem mem_zeroNans_not_nan (l : List FVal) (v : FVal) (h : v ∈ zeroNans l) :
    v.isNan = false := by
  rw [zeroNans, List.mem_map] at h
  obtain ⟨w, _, hw⟩ := h
  rw [← hw]
  exact zeroNans_not_nan w

theorem getElem_zeroNans_nan (l : List FVal) (i : Nat) (h : l[i]? = some FVal.nan) :
    (zeroNans l)[i]? = some (FVal.fin 0) := by
  rw [zeroNans, List.getElem?_map, h]
  rfl

/-- C1: for dimension-matched mean and observed grids (after setup with fill
value 0.0) and bdc in (0,1], the event map written by the reconstructor holds,
at every voxel position, exactly (xmap_voxel - (1-bdc)*mean_voxel)/bdc
computed from the two input grids at that position. -/
theorem recalc_event_map_voxel_formula (dtag : String) (bdc : PyFloat) (idx : Nat)
    (mp xp : PGrid3) (hu : mp.nu = xp.nu) (hv : mp.nv = xp.nv) (hw : mp.nw = xp.nw)
    (_hb0 : 0 < bdc.toVal) (_hb1 : bdc.toVal ≤ 1)
    (i j k : Nat) (hi : i < xp.nu) (hj : j < xp.nv) (hk : k < xp.nw) :
    ∃ out, recalculate_event_map dtag bdc idx (some mp) (some xp) = Except.ok out ∧
      out.grid.val i j k =
        (((ccp4Setup (FVal.fin 0) xp).val i j k).fsub
          (((ccp4Setup (FVal.fin 0) mp).val i j k).smul (1 - bdc.toVal))).fdivScalar bdc.toVal := by
  obtain ⟨out, h1, _, h3⟩ := recalc_dims_eq dtag bdc idx mp xp hu hv hw i j k hi hj hk
  exact ⟨out, h1, h3⟩

/-- Witness for C1 at bdc = 0.5 on 1 by 1 by 1 grids. -/
theorem recalc_event_map_voxel_formula_witness :
    (pgTwo.nu = pgOne.nu ∧ 0 < pfHalf.toVal ∧ pfHalf.toVal ≤ 1 ∧ 0 < pgOne.nu) ∧
    (∃ out, recalculate_event_map "D1" pfHalf 1 (some pgTwo) (some pgOne) = Except.ok out ∧
      out.grid.val 0 0 0 =
        (((ccp4Setup (FVal.fin 0) pgOne).val 0 0 0).fsub
          (((ccp4Setup (FVal.fin 0) pgTwo).val 0 0 0).smul (1 - pfHalf.toVal))).fdivScalar pfHalf.toVal) := by
  have hb0 : 0 < pfHalf.toVal := by norm_num [pfHalf, PyFloat.toVal, List.foldl]
  have hb1 : pfHalf.toVal ≤ 1 := by norm_num [pfHalf, PyFloat.toVal, List.foldl]
  exact ⟨⟨rfl, hb0, hb1, by decide⟩,
    recalc_event_map_voxel_formula "D1" pfHalf 1 pgTwo pgOne rfl rfl rfl hb0 hb1 0 0 0
      (by decide) (by decide) (by decide)⟩

/-- C2 counterexample: a +Inf voxel is non-finite but survives normalization
unchanged, so non-finite values are not all replaced with 0.0. -/
theorem normalize_inf_survives_counterexample :
    (normalizeMap mapInf).data = [some FVal.pinf] ∧ FVal.pinf.isFinite = false := by decide

/-- C2 amended: after normalization no voxel is NaN, and every voxel that was
NaN after the setup fill is exactly 0.0 in the written file; infinities are
not replaced (np.isnan is false on them). -/
theorem normalize_zeroes_nans (m : Ccp4Map) :
    (∀ v : FVal, some v ∈ (normalizeMap m).data → v.isNan = false) ∧
    (∀ i : Nat, (setupFillList FVal.nan m.data)[i]? = some FVal.nan →
      (normalizeMap m).data[i]? = some (some (FVal.fin 0))) := by
  constructor
  · intro v hv
    simp only [normalizeMap, List.mem_map, Option.some.injEq] at hv
    obtain ⟨w, hw, rfl⟩ := hv
    exact mem_zeroNans_not_nan _ _ hw
  · intro i hi
    simp only [normalizeMap, List.getElem?_map]
    rw [getElem_zeroNans_nan _ _ hi]
    rfl

/-- Witness for C2 amended on a map holding one NaN voxel. -/
theorem normalize_zeroes_nans_witness :
    (setupFillList FVal.nan mapNan.data)[0]? = some FVal.nan ∧
    (normalizeMap mapNan).data[0]? = some (some (FVal.fin 0)) :=
  ⟨by decide, (normalize_zeroes_nans mapNan).2 0 (by decide)⟩

/-- C3 counterexample: at bdc = 0.3 the written file name carries the raw
rendering 0.3, not the two-decimal-place form 0.30 the claim requires. -/
theorem event_map_name_not_two_dp_counterexample :
    recalcPath (recalculate_event_map "D1" pfPoint3 1 (some pgOne) (some pgOne)) =
      some "D1-event_1_1-BDC_0.3_map.native.ccp4" ∧
    twoDPStr pfPoint3 = "0.30" ∧
    "D1-event_1_1-BDC_0.3_map.native.ccp4" ≠
      "D1" ++ "-event_" ++ toString 1 ++ "_1-BDC_" ++ twoDPStr pfPoint3 ++ "_map.native.ccp4" := by
  decide

/-- C3 amended: the output file name follows the fixed template with the
dataset tag, the event index, and the BDC value rendered by the default
CPython float formatting, with no rounding to two decimal places. -/
theorem event_map_name_raw_bdc (dtag : String) (bdc : PyFloat) (idx : Nat)
    (mr xr : Option PGrid3) (out : RecalcOut)
    (h : recalculate_event_map dtag bdc idx mr xr = Except.ok out) :
    out.path = dtag ++ "-event_" ++ toString idx ++ "_1-BDC_" ++ bdc.toStr ++ "_map.native.ccp4" := by
  cases mr with
  | none => exact Except.noConfusion h
  | some mp =>
    cases xr with
    | none => exact Except.noConfusion h
    | some xp =>
      simp only [recalculate_event_map] at h
      split at h
      · exact Except.noConfusion h
      · split at h
        · exact Except.noConfusion h
        · injection h with h2
          subst h2
          rfl

/-- Witness for C3 amended at bdc = 0.5. -/
theorem event_map_name_raw_bdc_witness :
    recalcPath (recalculate_event_map "D1" pfHalf 1 (some pgOne) (some pgOne)) =
      some ("D1" ++ "-event_" ++ toString 1 ++ "_1-BDC_" ++ pfHalf.toStr ++ "_map.native.ccp4") := by
  rcases hr : recalculate_event_map "D1" pfHalf 1 (some pgOne) (some pgOne) with e | out
  · have hp : recalcIsOk (recalculate_event_map "D1" pfHalf 1 (some pgOne) (some pgOne)) = true := by
      decide
    rw [hr] at hp
    exact Bool.noConfusion hp
  · simp only [recalcPath]
    rw [event_map_name_raw_bdc "D1" pfHalf 1 (some pgOne) (some pgOne) out hr]

/-- C4: at bdc = 0 the script performs the element-wise division anyway
(IEEE semantics, -1.0/0.0 = -Inf here), allocates the grid and writes the
output file; there is no precondition check and no error. -/
theorem recalc_bdc_zero_divides_and_writes :
    recalcPath (recalculate_event_map "D1" pfZero 1 (some pgTwo) (some pgOne)) =
      some "D1-event_1_1-BDC_0.0_map.native.ccp4" ∧
    recalcVal (recalculate_event_map "D1" pfZero 1 (some pgTwo) (some pgOne)) 0 0 0 =
      some FVal.ninf ∧
    FVal.ninf.isFinite = false := by
  refine ⟨by decide, ?_, by decide⟩
  simp [recalcVal, recalculate_event_map, subGridsBroadcast, bcastDim, assignInto,
    divScalarGrid, smulGrid, ccp4Setup, bIdx, pgOne, pgTwo, pfZero, PyFloat.toVal,
    FVal.fsub, FVal.smul, FVal.fdivScalar]

/-- C5: when the first file of a batch fails to open, the corruption
diagnostic is logged but the function then dereferences the unbound local
and raises; the loop has no handler, so the batch aborts and the healthy
second file is never processed, although alone it would have been. -/
theorem normalize_open_failure_aborts_batch :
    update_event_map_spacegroup none = (true, Except.error PyError.unboundLocal) ∧
    runNormalizeLoop [none, some mapGood] = ([], false) ∧
    runNormalizeLoop [some mapGood] = ([normalizeMap mapGood], true) := by decide

/-- C6 counterexample: a 1 by 1 by 1 mean grid against a 2 by 2 by 2 observed
grid has mismatched dimensions, yet numpy broadcasting lets the computation
through and the output file is written. -/
theorem recalc_broadcast_mismatch_writes_counterexample :
    (pgTwo.nu, pgTwo.nv, pgTwo.nw) ≠ (pgBig.nu, pgBig.nv, pgBig.nw) ∧
    recalcPath (recalculate_event_map "D1" pfHalf 1 (some pgTwo) (some pgBig)) =
      some "D1-event_1_1-BDC_0.5_map.native.ccp4" := by decide

/-- C6 amended: the reconstruction succeeds (and writes an output) exactly
when every mean-grid dimension equals the corresponding observed-grid
dimension or is 1; any other mismatch raises a numpy error before anything is
written. -/
theorem recalc_ok_iff_mean_dims_compat (dtag : String) (bdc : PyFloat) (idx : Nat)
    (mp xp : PGrid3) :
    recalcIsOk (recalculate_event_map dtag bdc idx (some mp) (some xp)) = meanDimsCompat mp xp := by
  obtain ⟨mu, mv, mw, mval⟩ := mp
  obtain ⟨xu, xv, xw, xval⟩ := xp
  have d1 := dimOkLemma xu mu
  have d2 := dimOkLemma xv mv
  have d3 := dimOkLemma xw mw
  simp only [recalculate_event_map, subGridsBroadcast, smulGrid, ccp4Setup, divScalarGrid,
    meanDimsCompat]
  rcases hb1 : bcastDim xu mu with _ | r1 <;> rw [hb1] at d1 <;>
    rcases hb2 : bcastDim xv mv with _ | r2 <;> rw [hb2] at d2 <;>
      rcases hb3 : bcastDim xw mw with _ | r3 <;> rw [hb3] at d3 <;>
        simp only [recalcIsOk, assignInto, ← d1, ← d2, ← d3, Bool.false_and, Bool.and_false]
  cases hC : ((r1 == xu || r1 == 1) && (r2 == xv || r2 == 1) && (r3 == xw || r3 == 1)) <;>
    simp [hC, recalcIsOk]

/-- C7: header normalization is idempotent: re-running it on the output of a
previous run logs no diagnostic and writes back the identical map, voxel
array and header statistics included. -/
theorem normalize_idempotent (m : Ccp4Map) :
    update_event_map_spacegroup (some (normalizeMap m)) = (false, Except.ok (normalizeMap m)) := by
  simp [update_event_map_spacegroup, normalizeMap_idem]

/-- C8: on the current path a failing row aborts the whole batch: with the
first row's mean-map read failing, the healthy second row is never processed,
although alone it would have produced its output. -/
theorem recalc_row_failure_aborts_batch :
    dispatch "pandda" false [] (fun s => s) (fun _ => none) [badRow, goodRow] =
      DispatchOut.recalculated ([], false) ∧
    dispatch "pandda" false [] (fun s => s) (fun _ => none) [goodRow] =
      DispatchOut.recalculated (["GOOD-event_2_1-BDC_0.5_map.native.ccp4"], true) := by decide

/-- C9 counterexample: with an argument naming a recognized configuration
file, the script still uses the argument itself as the root with no
exclusions, instead of the pandda_dir and excluded_files the file describes. -/
theorem legacy_config_ignored_counterexample :
    buildOptions "options.json" = ⟨"options.json", []⟩ ∧
    specConfigParse "options.json" cfgRead (fun s => s) = ⟨"/data/pandda", ["/data/bad.ccp4"]⟩ ∧
    buildOptions "options.json" ≠ specConfigParse "options.json" cfgRead (fun s => s) := by decide

/-- C9 amended: the legacy path never reads a configuration file: whatever
the argument, it is used directly as the root, the exclusion list is empty,
and every enumerated event-map file is processed. -/
theorem legacy_always_direct_root (pandda_dir : String) (dirs : List (List String))
    (resolve : String → String) (readMap : String → Option Ccp4Map) :
    buildOptions pandda_dir = ⟨pandda_dir, []⟩ ∧
    update_event_map_spacegroups pandda_dir dirs resolve readMap =
      runNormalizeLoop (dirs.flatten.map readMap) := by
  refine ⟨rfl, ?_⟩
  have hfil : ∀ l : List String, l.filter (fun f => !(List.contains [] (resolve f))) = l := by
    intro l
    apply List.filter_eq_self.mpr
    intro a _
    simp
  simp only [update_event_map_spacegroups, buildOptions, get_event_map_files, List.map_nil, hfil]

/-- C10: the reconstructor performs no non-finite sanitization: with matched
dimensions and bdc in (0,1], a voxel position at which the observed or the
mean setup grid is non-finite yields a non-finite voxel in the written event
map. -/
theorem recalc_propagates_nonfinite (dtag : String) (bdc : PyFloat) (idx : Nat)
    (mp xp : PGrid3) (hu : mp.nu = xp.nu) (hv : mp.nv = xp.nv) (hw : mp.nw = xp.nw)
    (_hb0 : 0 < bdc.toVal) (_hb1 : bdc.toVal ≤ 1)
    (i j k : Nat) (hi : i < xp.nu) (hj : j < xp.nv) (hk : k < xp.nw)
    (hnf : ((ccp4Setup (FVal.fin 0) xp).val i j k).isFinite = false ∨
      ((ccp4Setup (FVal.fin 0) mp).val i j k).isFinite = false) :
    ∃ out, recalculate_event_map dtag bdc idx (some mp) (some xp) = Except.ok out ∧
      (out.grid.val i j k).isFinite = false := by
  obtain ⟨out, h1, _, h3⟩ := recalc_dims_eq dtag bdc idx mp xp hu hv hw i j k hi hj hk
  refine ⟨out, h1, ?_⟩
  rw [h3]
  exact formula_nonfin _ _ _ hnf

/-- Witness for C10: a NaN voxel in the observed map at bdc = 0.5. -/
theorem recalc_propagates_nonfinite_witness :
    (((ccp4Setup (FVal.fin 0) pgNan).val 0 0 0).isFinite = false ∧ 0 < pfHalf.toVal) ∧
    (∃ out, recalculate_event_map "D1" pfHalf 1 (some pgTwo) (some pgNan) = Except.ok out ∧
      (out.grid.val 0 0 0).isFinite = false) := by
  have hb0 : 0 < pfHalf.toVal := by norm_num [pfHalf, PyFloat.toVal, List.foldl]
  have hb1 : pfHalf.toVal ≤ 1 := by norm_num [pfHalf, PyFloat.toVal, List.foldl]
  exact ⟨⟨by decide, hb0⟩,
    recalc_propagates_nonfinite "D1" pfHalf 1 pgTwo pgNan rfl rfl rfl hb0 hb1 0 0 0
      (by decide) (by decide) (by decide) (Or.inl (by decide))⟩
